import Mathlib

/-!
Verification development for the LambCo2You site-selection engine
(`src/lib/types.ts`, containing the shared type definitions and the
scoring-engine module).

Modelling conventions:
* JavaScript numbers are modelled as exact rationals (`ℚ`) inside the
  engine; the Haversine distance, which is transcendental, is modelled
  separately over `ℝ` (`calculateDistance`) and the site generator is
  parametrized over the distance function it uses, so that the
  generator's logic stays executable.
* `Math.round` is half-up rounding, modelled by `jsRound`.
* `Math.random()` draws are modelled by an explicit stream `g : ℕ → ℚ`
  together with a cursor `k : ℕ` that is threaded through the
  computation exactly in the source's evaluation order (including the
  short-circuited draw for `nearPort` and the conditional draw for
  `populationDensity`).  The source has no seed parameter; the stream
  stands for whatever the ambient unseeded `Math.random` produces.
* `Array.prototype.sort` with comparator `(a, b) => b.overallScore -
  a.overallScore` is a stable descending sort, modelled by
  `List.mergeSort` with the corresponding boolean order.
-/

namespace LambCo

/-- Operational status of a facility (`"active" | "inactive" | "planned"`). -/
inductive OperationalStatus where
  | active
  | inactive
  | planned
deriving DecidableEq, Repr

/-- CO2 emitter facility type
(`"petrochemical" | "refinery" | "steel" | "cement" | "power"`). -/
inductive FacilityType where
  | petrochemical
  | refinery
  | steel
  | cement
  | power
deriving DecidableEq, Repr

/-- `AceticAcidFacility` record from `src/lib/types.ts`. -/
structure AceticAcidFacility where
  id : String
  name : String
  latitude : ℚ
  longitude : ℚ
  capacity : ℚ
  operationalStatus : OperationalStatus
  lastUpdated : String
deriving DecidableEq, Repr

/-- `CO2EmitterFacility` record from `src/lib/types.ts`. -/
structure CO2EmitterFacility where
  id : String
  name : String
  latitude : ℚ
  longitude : ℚ
  co2EmissionRate : ℚ
  facilityType : FacilityType
  operationalStatus : OperationalStatus
  lastUpdated : String
deriving DecidableEq, Repr

/-- `OverlapSite` record from `src/lib/types.ts`.  `overallScore` is the
result of `Math.round`, hence an integer. -/
structure OverlapSite where
  id : String
  latitude : ℚ
  longitude : ℚ
  aceticAcidFacilities : List String
  co2EmitterFacilities : List String
  distance : ℚ
  governmentalScore : ℚ
  logisticsScore : ℚ
  policyIncentivesScore : ℚ
  communityReadinessScore : ℚ
  overallScore : ℤ
deriving DecidableEq, Repr

/-- The five regulatory zone keys of `REGULATORY_ZONES`. -/
inductive Region where
  | gulfCoast
  | midwest
  | northeast
  | westCoast
  | southeast
deriving DecidableEq, Repr, Fintype

/-- Population density tier (`"low" | "medium" | "high"`). -/
inductive Density where
  | low
  | medium
  | high
deriving DecidableEq, Repr, Fintype

/-- The fixed scoring weights (`SCORING_WEIGHTS` constant). -/
structure ScoringWeights where
  governmental : ℚ
  logistics : ℚ
  policyIncentives : ℚ
  communityReadiness : ℚ
deriving DecidableEq, Repr

/-- `SCORING_WEIGHTS = { governmental: 0.3, logistics: 0.25,
policyIncentives: 0.25, communityReadiness: 0.2 }`. -/
def SCORING_WEIGHTS : ScoringWeights :=
  { governmental := 0.3
    logistics := 0.25
    policyIncentives := 0.25
    communityReadiness := 0.2 }

/-- Per-zone base ratings of `REGULATORY_ZONES`. -/
structure ZoneRating where
  governmental : ℚ
  logistics : ℚ
  policy : ℚ
deriving DecidableEq, Repr

/-- `REGULATORY_ZONES` table from `src/lib/types.ts`. -/
def REGULATORY_ZONES : Region → ZoneRating
  | .gulfCoast => ⟨85, 90, 75⟩
  | .midwest => ⟨70, 85, 60⟩
  | .northeast => ⟨60, 70, 80⟩
  | .westCoast => ⟨65, 75, 90⟩
  | .southeast => ⟨80, 80, 70⟩

/-- Keys of the `INFRASTRUCTURE_FACTORS` table. -/
inductive InfraKey where
  | port
  | highway
  | rail
  | pipeline
  | powerGrid
deriving DecidableEq, Repr

/-- Per-key entries of `INFRASTRUCTURE_FACTORS`. -/
structure InfrastructureFactor where
  logistics : ℚ
  governmental : ℚ
deriving DecidableEq, Repr

/-- `INFRASTRUCTURE_FACTORS` table from `src/lib/types.ts`. -/
def INFRASTRUCTURE_FACTORS : InfraKey → InfrastructureFactor
  | .port => ⟨25, 5⟩
  | .highway => ⟨15, 0⟩
  | .rail => ⟨20, 0⟩
  | .pipeline => ⟨30, 10⟩
  | .powerGrid => ⟨10, 5⟩

/-- `ScoringFactors` record. -/
structure ScoringFactors where
  governmental : ℚ
  logistics : ℚ
  policyIncentives : ℚ
  communityReadiness : ℚ
deriving DecidableEq, Repr

/-- `GeographicContext` record. -/
structure GeographicContext where
  region : Region
  nearPort : Bool
  nearHighway : Bool
  nearRail : Bool
  nearPipeline : Bool
  nearPowerGrid : Bool
  populationDensity : Density
  industrialZoning : Bool
deriving DecidableEq, Repr

/-- The infrastructure part of a `GeographicContext`
(TypeScript `Omit GeographicContext region`). -/
structure InfrastructureProfile where
  nearPort : Bool
  nearHighway : Bool
  nearRail : Bool
  nearPipeline : Bool
  nearPowerGrid : Bool
  populationDensity : Density
  industrialZoning : Bool
deriving DecidableEq, Repr

/-- JavaScript `Math.round`: half-up rounding. -/
def jsRound (q : ℚ) : ℤ := ⌊q + 1 / 2⌋

/-- `Math.max(0, Math.min(100, score))`, the clamp used by every
sub-score function. -/
def clamp (score : ℚ) : ℚ := max 0 (min 100 score)

/-- `getGeographicRegion` from `src/lib/types.ts`: bounding-box lookup in
fixed priority order, defaulting to southeast. -/
def getGeographicRegion (lat lon : ℚ) : Region :=
  if 25 ≤ lat ∧ lat ≤ 32 ∧ -97 ≤ lon ∧ lon ≤ -87 then .gulfCoast
  else if 38 ≤ lat ∧ lat ≤ 47 ∧ -90 ≤ lon ∧ lon ≤ -80 then .midwest
  else if 39 ≤ lat ∧ lat ≤ 45 ∧ -80 ≤ lon ∧ lon ≤ -69 then .northeast
  else if 32 ≤ lat ∧ lat ≤ 49 ∧ -125 ≤ lon ∧ lon ≤ -114 then .westCoast
  else .southeast

/-- `getInfrastructureContext` from `src/lib/types.ts`.  Each
`Math.random()` call reads the stream `g` at the current cursor and
advances it; the `nearPort` draw happens only when `isCoastal`
(short-circuit of `&&`) and the density draw happens only when the
point is not urban, exactly as in the source.  Returns the profile and
the advanced cursor. -/
def getInfrastructureContext (lat lon : ℚ) (g : ℕ → ℚ) (k : ℕ) :
    InfrastructureProfile × ℕ :=
  let isCoastal := decide (80 < abs lon) && (decide (lat < 35) || decide (45 < lat))
  let isUrban := decide ((0.6 : ℚ) < g k)
  let k1 := k + 1
  let nearPort := isCoastal && decide ((0.4 : ℚ) < g k1)
  let k2 := if isCoastal then k1 + 1 else k1
  let nearHighway := decide ((0.3 : ℚ) < g k2)
  let nearRail := decide ((0.5 : ℚ) < g (k2 + 1))
  let nearPipeline := decide ((0.4 : ℚ) < g (k2 + 2))
  let nearPowerGrid := decide ((0.2 : ℚ) < g (k2 + 3))
  let k3 := k2 + 4
  let populationDensity :=
    if isUrban then Density.high
    else if decide ((0.5 : ℚ) < g k3) then Density.medium else Density.low
  let k4 := if isUrban then k3 else k3 + 1
  let industrialZoning := decide ((0.4 : ℚ) < g k4)
  (⟨nearPort, nearHighway, nearRail, nearPipeline, nearPowerGrid,
    populationDensity, industrialZoning⟩, k4 + 1)

/-- `calculateGovernmentalScore` from `src/lib/types.ts`. -/
def calculateGovernmentalScore (context : GeographicContext) : ℚ :=
  let score := (REGULATORY_ZONES context.region).governmental
  let score := if context.industrialZoning then score + 10 else score - 15
  let score :=
    match context.populationDensity with
    | .low => score + 5
    | .medium => score - 5
    | .high => score - 15
  let score := if context.nearPort then
    score + (INFRASTRUCTURE_FACTORS .port).governmental else score
  let score := if context.nearPipeline then
    score + (INFRASTRUCTURE_FACTORS .pipeline).governmental else score
  let score := if context.nearPowerGrid then
    score + (INFRASTRUCTURE_FACTORS .powerGrid).governmental else score
  clamp score

/-- `calculateLogisticsScore` from `src/lib/types.ts`. -/
def calculateLogisticsScore (context : GeographicContext) : ℚ :=
  let score := (REGULATORY_ZONES context.region).logistics
  let score := if context.nearPort then
    score + (INFRASTRUCTURE_FACTORS .port).logistics else score
  let score := if context.nearHighway then
    score + (INFRASTRUCTURE_FACTORS .highway).logistics else score
  let score := if context.nearRail then
    score + (INFRASTRUCTURE_FACTORS .rail).logistics else score
  let score := if context.nearPipeline then
    score + (INFRASTRUCTURE_FACTORS .pipeline).logistics else score
  let score := if context.nearPowerGrid then
    score + (INFRASTRUCTURE_FACTORS .powerGrid).logistics else score
  let score := if context.populationDensity = .high then score - 10 else score
  clamp score

/-- `calculatePolicyIncentivesScore` from `src/lib/types.ts`. -/
def calculatePolicyIncentivesScore (context : GeographicContext) : ℚ :=
  let score := (REGULATORY_ZONES context.region).policy
  let score := if context.industrialZoning then score + 15 else score
  let score :=
    match context.populationDensity with
    | .low => score + 10
    | .medium => score + 5
    | .high => score - 5
  clamp score

/-- `calculateCommunityReadinessScore` from `src/lib/types.ts`. -/
def calculateCommunityReadinessScore (context : GeographicContext) : ℚ :=
  let score : ℚ := 50
  let score := if context.industrialZoning then score + 20 else score
  let score :=
    match context.populationDensity with
    | .low => score + 15
    | .medium => score + 5
    | .high => score - 20
  let score := if context.nearPort || context.nearRail || context.nearPipeline
    then score + 10 else score
  clamp score

/-- The `GeographicContext` assembled by `calculateSiteScores`
(`{ region, ...infraContext }`). -/
def siteContext (lat lon : ℚ) (g : ℕ → ℚ) (k : ℕ) : GeographicContext :=
  let infra := (getInfrastructureContext lat lon g k).1
  ⟨getGeographicRegion lat lon, infra.nearPort, infra.nearHighway, infra.nearRail,
    infra.nearPipeline, infra.nearPowerGrid, infra.populationDensity,
    infra.industrialZoning⟩

/-- `calculateSiteScores` from `src/lib/types.ts`, returning the four
sub-scores and the advanced randomness cursor. -/
def calculateSiteScores (lat lon : ℚ) (g : ℕ → ℚ) (k : ℕ) :
    ScoringFactors × ℕ :=
  (⟨calculateGovernmentalScore (siteContext lat lon g k),
    calculateLogisticsScore (siteContext lat lon g k),
    calculatePolicyIncentivesScore (siteContext lat lon g k),
    calculateCommunityReadinessScore (siteContext lat lon g k)⟩,
   (getInfrastructureContext lat lon g k).2)

/-- `calculateOverallScore` from `src/lib/types.ts`:
`Math.round` of the weighted sum. -/
def calculateOverallScore (scores : ScoringFactors) : ℤ :=
  jsRound (scores.governmental * SCORING_WEIGHTS.governmental +
    scores.logistics * SCORING_WEIGHTS.logistics +
    scores.policyIncentives * SCORING_WEIGHTS.policyIncentives +
    scores.communityReadiness * SCORING_WEIGHTS.communityReadiness)

/-- `analyzeFacilitySynergies` from `src/lib/types.ts`. -/
def analyzeFacilitySynergies (aceticFacilities : List AceticAcidFacility)
    (co2Facilities : List CO2EmitterFacility) : ℚ :=
  let synergyScore : ℚ := 0
  let totalAceticCapacity := aceticFacilities.foldl (fun sum f => sum + f.capacity) (0 : ℚ)
  let synergyScore := if 400000 < totalAceticCapacity then synergyScore + 10 else synergyScore
  let totalCO2Emissions := co2Facilities.foldl (fun sum f => sum + f.co2EmissionRate) (0 : ℚ)
  let synergyScore := if 2000000 < totalCO2Emissions then synergyScore + 10 else synergyScore
  let typeCount := ((co2Facilities.map (fun f => f.facilityType)).dedup).length
  let synergyScore := synergyScore + min ((typeCount : ℚ) * 3) 15
  min synergyScore 25

/-- The capacity-weighted optimal latitude of a pair
(lines 329-333 of the generator). -/
def optimalLat (a : AceticAcidFacility) (c : CO2EmitterFacility) : ℚ :=
  (a.latitude * (a.capacity / 1000000) + c.latitude * (c.co2EmissionRate / 10000000)) /
    (a.capacity / 1000000 + c.co2EmissionRate / 10000000)

/-- The capacity-weighted optimal longitude of a pair. -/
def optimalLon (a : AceticAcidFacility) (c : CO2EmitterFacility) : ℚ :=
  (a.longitude * (a.capacity / 1000000) + c.longitude * (c.co2EmissionRate / 10000000)) /
    (a.capacity / 1000000 + c.co2EmissionRate / 10000000)

/-- The body of the generator loop for one pair that passed the distance
check: base scores at the optimal location, synergy bonus, partial
boost of governmental (30%) and logistics (40%) clamped at 100, and
the assembled `OverlapSite` (with sequential id `n`).  Returns the site
and the advanced randomness cursor. -/
def pairSite (dist : ℚ → ℚ → ℚ → ℚ → ℚ) (g : ℕ → ℚ)
    (a : AceticAcidFacility) (c : CO2EmitterFacility) (k n : ℕ) :
    OverlapSite × ℕ :=
  let distance := dist a.latitude a.longitude c.latitude c.longitude
  let scores := (calculateSiteScores (optimalLat a c) (optimalLon a c) g k).1
  let synergyBonus := analyzeFacilitySynergies [a] [c]
  let adjustedScores : ScoringFactors :=
    { scores with
      governmental := min 100 (scores.governmental + synergyBonus * 0.3)
      logistics := min 100 (scores.logistics + synergyBonus * 0.4) }
  (⟨"site-" ++ toString n, optimalLat a c, optimalLon a c, [a.id], [c.id],
    ((jsRound (distance * 100) : ℤ) : ℚ) / 100,
    adjustedScores.governmental, adjustedScores.logistics,
    adjustedScores.policyIncentives, adjustedScores.communityReadiness,
    calculateOverallScore adjustedScores⟩,
   (calculateSiteScores (optimalLat a c) (optimalLon a c) g k).2)

/-- Accumulator of the generator loops: emitted sites in generation
order, the next sequential site id, and the randomness cursor. -/
structure GenState where
  sites : List OverlapSite
  siteId : ℕ
  k : ℕ
deriving DecidableEq, Repr

/-- One iteration of the inner generator loop: distance filter
(inclusive), score filter (inclusive), conditional emission.  The
randomness cursor advances exactly when the distance check passes, and
the site id increments exactly when a site is emitted, as in the
source. -/
def processPair (dist : ℚ → ℚ → ℚ → ℚ → ℚ) (g : ℕ → ℚ)
    (maxDistance minScore : ℚ) (a : AceticAcidFacility)
    (c : CO2EmitterFacility) (st : GenState) : GenState :=
  if dist a.latitude a.longitude c.latitude c.longitude ≤ maxDistance then
    if minScore ≤ ((pairSite dist g a c st.k st.siteId).1.overallScore : ℚ) then
      { sites := st.sites ++ [(pairSite dist g a c st.k st.siteId).1]
        siteId := st.siteId + 1
        k := (pairSite dist g a c st.k st.siteId).2 }
    else
      { sites := st.sites
        siteId := st.siteId
        k := (pairSite dist g a c st.k st.siteId).2 }
  else st

/-- The sites pushed by the nested `forEach` loops of
`generateSiteRecommendations`, in generation order (outer loop over
acetic facilities, inner loop over CO2 facilities), before sorting. -/
def generatedSites (aceticFacilities : List AceticAcidFacility)
    (co2Facilities : List CO2EmitterFacility) (dist : ℚ → ℚ → ℚ → ℚ → ℚ)
    (maxDistance minScore : ℚ) (g : ℕ → ℚ) (k : ℕ) : List OverlapSite :=
  (aceticFacilities.foldl
    (fun st a => co2Facilities.foldl
      (fun st' c => processPair dist g maxDistance minScore a c st') st)
    ⟨[], 1, k⟩).sites

/-- `generateSiteRecommendations` from `src/lib/types.ts`: enumerate all
pairs, then stable-sort by `overallScore` descending
(`sites.sort((a, b) => b.overallScore - a.overallScore)`).  The
distance function is a parameter (the source passes `calculateDistance`,
modelled separately over the reals), and `g`, `k` model the ambient
`Math.random` stream. -/
def generateSiteRecommendations (aceticFacilities : List AceticAcidFacility)
    (co2Facilities : List CO2EmitterFacility) (dist : ℚ → ℚ → ℚ → ℚ → ℚ)
    (maxDistance minScore : ℚ) (g : ℕ → ℚ) (k : ℕ) : List OverlapSite :=
  (generatedSites aceticFacilities co2Facilities dist maxDistance minScore g k).mergeSort
    (fun x y => decide (y.overallScore ≤ x.overallScore))

/-- JavaScript `Math.atan2` on real arguments (signed-zero and NaN
behaviour aside, which cannot arise below). -/
noncomputable def jsAtan2 (y x : ℝ) : ℝ :=
  if 0 < x then Real.arctan (y / x)
  else if x < 0 then
    (if 0 ≤ y then Real.arctan (y / x) + Real.pi else Real.arctan (y / x) - Real.pi)
  else
    (if 0 < y then Real.pi / 2 else if y < 0 then -(Real.pi / 2) else 0)

/-- `calculateDistance` from `src/lib/types.ts`: the Haversine formula
with Earth radius 6371 km, over the reals. -/
noncomputable def calculateDistance (lat1 lon1 lat2 lon2 : ℝ) : ℝ :=
  let R : ℝ := 6371
  let dLat := (lat2 - lat1) * Real.pi / 180
  let dLon := (lon2 - lon1) * Real.pi / 180
  let a := Real.sin (dLat / 2) * Real.sin (dLat / 2) +
    Real.cos (lat1 * Real.pi / 180) * Real.cos (lat2 * Real.pi / 180) *
      (Real.sin (dLon / 2) * Real.sin (dLon / 2))
  let c := 2 * jsAtan2 (Real.sqrt a) (Real.sqrt (1 - a))
  R * c

/-- `EmittedFrom dist g maxD minS a c k n s` says that `s` is exactly the
site the generator loop emits for the pair `(a, c)` at randomness
cursor `k` with sequential id `n`: the pair passed the inclusive
distance check and the site passed the inclusive score check. -/
def EmittedFrom (dist : ℚ → ℚ → ℚ → ℚ → ℚ) (g : ℕ → ℚ)
    (maxDistance minScore : ℚ) (a : AceticAcidFacility)
    (c : CO2EmitterFacility) (k n : ℕ) (s : OverlapSite) : Prop :=
  dist a.latitude a.longitude c.latitude c.longitude ≤ maxDistance ∧
  s = (pairSite dist g a c k n).1 ∧
  minScore ≤ ((pairSite dist g a c k n).1.overallScore : ℚ)

/-- Governmental sub-score written exactly as the adjustment table of
spec section 4.3 states it: zone base, +10 if industrialZoning else
-15, density low +5 / medium -5 / high -15, +5 nearPort, +10
nearPipeline, +5 nearPowerGrid, clamped to [0,100]. -/
def spec_governmentalScore (c : GeographicContext) : ℚ :=
  clamp ((REGULATORY_ZONES c.region).governmental
    + (if c.industrialZoning then 10 else -15)
    + (match c.populationDensity with | .low => 5 | .medium => -5 | .high => -15)
    + (if c.nearPort then 5 else 0)
    + (if c.nearPipeline then 10 else 0)
    + (if c.nearPowerGrid then 5 else 0))

/-- Logistics sub-score as the spec's adjustment table states it. -/
def spec_logisticsScore (c : GeographicContext) : ℚ :=
  clamp ((REGULATORY_ZONES c.region).logistics
    + (if c.nearPort then 25 else 0)
    + (if c.nearHighway then 15 else 0)
    + (if c.nearRail then 20 else 0)
    + (if c.nearPipeline then 30 else 0)
    + (if c.nearPowerGrid then 10 else 0)
    + (if c.populationDensity = .high then -10 else 0))

/-- Policy-incentives sub-score as the spec's adjustment table states it. -/
def spec_policyIncentivesScore (c : GeographicContext) : ℚ :=
  clamp ((REGULATORY_ZONES c.region).policy
    + (if c.industrialZoning then 15 else 0)
    + (match c.populationDensity with | .low => 10 | .medium => 5 | .high => -5))

/-- Community-readiness sub-score as the spec's adjustment table states
it: base 50, +20 industrialZoning, density low +15 / medium +5 / high
-20, +10 if any of nearPort/nearRail/nearPipeline. -/
def spec_communityReadinessScore (c : GeographicContext) : ℚ :=
  clamp (50
    + (if c.industrialZoning then 20 else 0)
    + (match c.populationDensity with | .low => 15 | .medium => 5 | .high => -20)
    + (if c.nearPort || c.nearRail || c.nearPipeline then 10 else 0))

/-- The synergy bonus written exactly as spec section 4.4 states it:
(+10 if summed acetic capacity exceeds 400,000) + (+10 if summed CO2
emission rate exceeds 2,000,000) + min(3 x distinct CO2 facility type
count, 15), capped at 25. -/
def spec_synergyBonus (aceticFacilities : List AceticAcidFacility)
    (co2Facilities : List CO2EmitterFacility) : ℚ :=
  min ((if 400000 < aceticFacilities.foldl (fun sum f => sum + f.capacity) (0 : ℚ) then 10 else 0)
    + (if 2000000 < co2Facilities.foldl (fun sum f => sum + f.co2EmissionRate) (0 : ℚ) then 10 else 0)
    + min (3 * (((co2Facilities.map (fun f => f.facilityType)).dedup).length : ℚ)) 15) 25

/-- Concrete acetic facility from the spec's concrete scenario
(section 8): Houston, capacity 500,000. -/
def aceticHouston : AceticAcidFacility :=
  ⟨"acetic-1", "Houston Acetic", 30, -95, 500000, .active, "2024-01-01"⟩

/-- Concrete CO2 facility from the spec's concrete scenario: same
coordinate, rate 2,500,000, petrochemical. -/
def co2Houston : CO2EmitterFacility :=
  ⟨"co2-1", "Houston CO2", 30, -95, 2500000, .petrochemical, .active, "2024-01-01"⟩

/-- Distance oracle returning 0 for every pair (the two concrete
facilities share a coordinate, where the Haversine distance is 0). -/
def zeroDist : ℚ → ℚ → ℚ → ℚ → ℚ := fun _ _ _ _ => 0

/-- Distance oracle returning exactly 0.005 km for every pair. -/
def boundaryDist : ℚ → ℚ → ℚ → ℚ → ℚ := fun _ _ _ _ => 1 / 200

/-- A stream of `Math.random` draws that are all 0. -/
def drawsLow : ℕ → ℚ := fun _ => 0

/-- A stream of `Math.random` draws that are all 0.9. -/
def drawsHigh : ℕ → ℚ := fun _ => 9 / 10

/-- The single site the engine emits for the Houston pair under the
all-zero draw stream (computed by evaluating the engine). -/
def siteHouston : OverlapSite :=
  ⟨"site-1", 30, -95, ["acetic-1"], ["co2-1"], 0, 819 / 10, 496 / 5, 85, 65, 84⟩

/-- The single site the engine emits for the Houston pair under the
boundary distance oracle: the pair distance 0.005 equals maxDistance
exactly, and the stored two-decimal distance rounds up to 0.01. -/
def siteBoundary : OverlapSite :=
  ⟨"site-1", 30, -95, ["acetic-1"], ["co2-1"], 1 / 100, 819 / 10, 496 / 5, 85, 65, 84⟩

/-- The clamp keeps every value inside [0, 100]. -/
lemma clamp_bounds (s : ℚ) : 0 ≤ clamp s ∧ clamp s ≤ 100 :=
  ⟨le_max_left 0 _, max_le (by norm_num) (min_le_left 100 s)⟩

/-- Every sub-score produced by `calculateSiteScores` lies in [0, 100]. -/
lemma calculateSiteScores_bounds (lat lon : ℚ) (g : ℕ → ℚ) (k : ℕ) :
    (0 ≤ (calculateSiteScores lat lon g k).1.governmental ∧
      (calculateSiteScores lat lon g k).1.governmental ≤ 100) ∧
    (0 ≤ (calculateSiteScores lat lon g k).1.logistics ∧
      (calculateSiteScores lat lon g k).1.logistics ≤ 100) ∧
    (0 ≤ (calculateSiteScores lat lon g k).1.policyIncentives ∧
      (calculateSiteScores lat lon g k).1.policyIncentives ≤ 100) ∧
    (0 ≤ (calculateSiteScores lat lon g k).1.communityReadiness ∧
      (calculateSiteScores lat lon g k).1.communityReadiness ≤ 100) :=
  ⟨clamp_bounds _, clamp_bounds _, clamp_bounds _, clamp_bounds _⟩

/-- The synergy bonus is non-negative. -/
lemma analyzeFacilitySynergies_nonneg (af : List AceticAcidFacility)
    (cf : List CO2EmitterFacility) : 0 ≤ analyzeFacilitySynergies af cf := by
  unfold analyzeFacilitySynergies
  have hmin : (0 : ℚ) ≤ min ((((cf.map (fun f => f.facilityType)).dedup).length : ℚ) * 3) 15 :=
    le_min (by positivity) (by norm_num)
  dsimp only
  split <;> split <;> exact le_min (by linarith) (by norm_num)

/-- The synergy bonus is at most 25. -/
lemma analyzeFacilitySynergies_le (af : List AceticAcidFacility)
    (cf : List CO2EmitterFacility) : analyzeFacilitySynergies af cf ≤ 25 := by
  unfold analyzeFacilitySynergies
  exact min_le_right _ _

/-- Field-level description of the site built for one pair. -/
lemma pairSite_fields (dist : ℚ → ℚ → ℚ → ℚ → ℚ) (g : ℕ → ℚ)
    (a : AceticAcidFacility) (c : CO2EmitterFacility) (k n : ℕ) :
    (pairSite dist g a c k n).1.id = "site-" ++ toString n ∧
    (pairSite dist g a c k n).1.latitude = optimalLat a c ∧
    (pairSite dist g a c k n).1.longitude = optimalLon a c ∧
    (pairSite dist g a c k n).1.aceticAcidFacilities = [a.id] ∧
    (pairSite dist g a c k n).1.co2EmitterFacilities = [c.id] ∧
    (pairSite dist g a c k n).1.distance =
      ((jsRound (dist a.latitude a.longitude c.latitude c.longitude * 100) : ℤ) : ℚ) / 100 ∧
    (pairSite dist g a c k n).1.governmentalScore =
      min 100 ((calculateSiteScores (optimalLat a c) (optimalLon a c) g k).1.governmental
        + analyzeFacilitySynergies [a] [c] * 0.3) ∧
    (pairSite dist g a c k n).1.logisticsScore =
      min 100 ((calculateSiteScores (optimalLat a c) (optimalLon a c) g k).1.logistics
        + analyzeFacilitySynergies [a] [c] * 0.4) ∧
    (pairSite dist g a c k n).1.policyIncentivesScore =
      (calculateSiteScores (optimalLat a c) (optimalLon a c) g k).1.policyIncentives ∧
    (pairSite dist g a c k n).1.communityReadinessScore =
      (calculateSiteScores (optimalLat a c) (optimalLon a c) g k).1.communityReadiness ∧
    (pairSite dist g a c k n).1.overallScore =
      jsRound ((pairSite dist g a c k n).1.governmentalScore * SCORING_WEIGHTS.governmental
        + (pairSite dist g a c k n).1.logisticsScore * SCORING_WEIGHTS.logistics
        + (pairSite dist g a c k n).1.policyIncentivesScore * SCORING_WEIGHTS.policyIncentives
        + (pairSite dist g a c k n).1.communityReadinessScore * SCORING_WEIGHTS.communityReadiness) :=
  ⟨rfl, rfl, rfl, rfl, rfl, rfl, rfl, rfl, rfl, rfl, rfl⟩

/-- A site present after one `processPair` step was either already there
or was emitted for this pair. -/
lemma mem_processPair_sites {dist : ℚ → ℚ → ℚ → ℚ → ℚ} {g : ℕ → ℚ}
    {maxD minS : ℚ} {a : AceticAcidFacility} {c : CO2EmitterFacility}
    {st : GenState} {s : OverlapSite}
    (h : s ∈ (processPair dist g maxD minS a c st).sites) :
    s ∈ st.sites ∨ EmittedFrom dist g maxD minS a c st.k st.siteId s := by
  unfold processPair at h
  split at h
  case isTrue hd =>
    split at h
    case isTrue hs =>
      dsimp only at h
      rcases List.mem_append.mp h with h' | h'
      · exact Or.inl h'
      · exact Or.inr ⟨hd, List.mem_singleton.mp h', hs⟩
    case isFalse hs =>
      exact Or.inl h
  case isFalse hd =>
    exact Or.inl h

/-- A site present after the inner loop over the CO2 facilities was
either already there or was emitted for the fixed acetic facility and
one of those CO2 facilities. -/
lemma mem_inner_fold {dist : ℚ → ℚ → ℚ → ℚ → ℚ} {g : ℕ → ℚ}
    {maxD minS : ℚ} {a : AceticAcidFacility} {cf : List CO2EmitterFacility}
    {st : GenState} {s : OverlapSite}
    (h : s ∈ (cf.foldl (fun st' c => processPair dist g maxD minS a c st') st).sites) :
    s ∈ st.sites ∨ ∃ c ∈ cf, ∃ k n, EmittedFrom dist g maxD minS a c k n s := by
  induction cf generalizing st with
  | nil => exact Or.inl h
  | cons c cs ih =>
    rw [List.foldl_cons] at h
    rcases ih h with h' | ⟨c', hc', k, n, hE⟩
    · rcases mem_processPair_sites h' with h'' | hE
      · exact Or.inl h''
      · exact Or.inr ⟨c, List.mem_cons_self c cs, st.k, st.siteId, hE⟩
    · exact Or.inr ⟨c', List.mem_cons_of_mem _ hc', k, n, hE⟩

/-- A site present after the outer loop was either already there or was
emitted for some pair of the two lists. -/
lemma mem_outer_fold {dist : ℚ → ℚ → ℚ → ℚ → ℚ} {g : ℕ → ℚ}
    {maxD minS : ℚ} {af : List AceticAcidFacility} {cf : List CO2EmitterFacility}
    {st : GenState} {s : OverlapSite}
    (h : s ∈ (af.foldl (fun st' a => cf.foldl
      (fun st'' c => processPair dist g maxD minS a c st'') st') st).sites) :
    s ∈ st.sites ∨ ∃ a ∈ af, ∃ c ∈ cf, ∃ k n, EmittedFrom dist g maxD minS a c k n s := by
  induction af generalizing st with
  | nil => exact Or.inl h
  | cons a as ih =>
    rw [List.foldl_cons] at h
    rcases ih h with h' | ⟨a', ha', rest⟩
    · rcases mem_inner_fold h' with h'' | ⟨c, hc, k, n, hE⟩
      · exact Or.inl h''
      · exact Or.inr ⟨a, List.mem_cons_self a as, c, hc, k, n, hE⟩
    · exact Or.inr ⟨a', List.mem_cons_of_mem _ ha', rest⟩

/-- Every site in the generator's output was emitted for some pair of
the input lists. -/
lemma mem_generate {af : List AceticAcidFacility} {cf : List CO2EmitterFacility}
    {dist : ℚ → ℚ → ℚ → ℚ → ℚ} {maxD minS : ℚ} {g : ℕ → ℚ} {k : ℕ} {s : OverlapSite}
    (h : s ∈ generateSiteRecommendations af cf dist maxD minS g k) :
    ∃ a ∈ af, ∃ c ∈ cf, ∃ k' n, EmittedFrom dist g maxD minS a c k' n s := by
  unfold generateSiteRecommendations at h
  rw [List.mem_mergeSort] at h
  unfold generatedSites at h
  rcases mem_outer_fold h with h' | hex
  · exact absurd h' (List.not_mem_nil s)
  · exact hex

/-- Folding a function that ignores its list argument leaves the
accumulator unchanged. -/
lemma foldl_keep {α β : Type} (l : List α) (b : β) :
    l.foldl (fun acc _ => acc) b = b := by
  induction l generalizing b with
  | nil => rfl
  | cons x xs ih => exact ih b

/-- With no CO2 facilities, the generation loop emits nothing. -/
lemma generatedSites_co2_nil (af : List AceticAcidFacility)
    (dist : ℚ → ℚ → ℚ → ℚ → ℚ) (maxD minS : ℚ) (g : ℕ → ℚ) (k : ℕ) :
    generatedSites af [] dist maxD minS g k = [] := by
  unfold generatedSites
  rw [show (af.foldl (fun st a => ([] : List CO2EmitterFacility).foldl
      (fun st' c => processPair dist g maxD minS a c st') st)
      (⟨[], 1, k⟩ : GenState)) = ⟨[], 1, k⟩ from foldl_keep af _]

/-- The JS rounding of `q` is at most `q + 1/2`. -/
lemma jsRound_le (q : ℚ) : ((jsRound q : ℤ) : ℚ) ≤ q + 1 / 2 :=
  Int.floor_le (q + 1 / 2)

/-- The comparison used by the final sort is transitive. -/
lemma sortLE_trans (a b c : OverlapSite) :
    (fun x y => decide (y.overallScore ≤ x.overallScore)) a b →
    (fun x y => decide (y.overallScore ≤ x.overallScore)) b c →
    (fun x y => decide (y.overallScore ≤ x.overallScore)) a c := by
  simp only [decide_eq_true_eq]
  exact fun h1 h2 => le_trans h2 h1

/-- The comparison used by the final sort is total. -/
lemma sortLE_total (a b : OverlapSite) :
    ((fun x y => decide (y.overallScore ≤ x.overallScore)) a b ||
      (fun x y => decide (y.overallScore ≤ x.overallScore)) b a) = true := by
  simp only [Bool.or_eq_true, decide_eq_true_eq]
  exact le_total b.overallScore a.overallScore

set_option maxRecDepth 100000

/-- Concrete evaluation: the Houston pair under the all-zero draw stream
generates exactly `siteHouston`. -/
lemma generatedSites_houston :
    generatedSites [aceticHouston] [co2Houston] zeroDist 50 0 drawsLow 0 = [siteHouston] := by
  with_unfolding_all decide

/-- Concrete evaluation: the engine's full output for the Houston pair
under the all-zero draw stream. -/
lemma generate_houston :
    generateSiteRecommendations [aceticHouston] [co2Houston] zeroDist 50 0 drawsLow 0 =
      [siteHouston] := by
  unfold generateSiteRecommendations
  rw [generatedSites_houston, List.mergeSort_singleton]

/-- Concrete evaluation: the Houston pair at the boundary distance
oracle generates exactly `siteBoundary`. -/
lemma generatedSites_boundary :
    generatedSites [aceticHouston] [co2Houston] boundaryDist (1 / 200) 0 drawsLow 0 =
      [siteBoundary] := by
  with_unfolding_all decide

/-- Concrete evaluation: the engine's full output at the boundary
distance oracle. -/
lemma generate_boundary :
    generateSiteRecommendations [aceticHouston] [co2Houston] boundaryDist (1 / 200) 0 drawsLow 0 =
      [siteBoundary] := by
  unfold generateSiteRecommendations
  rw [generatedSites_boundary, List.mergeSort_singleton]

/-- Concrete evaluation: the same facility inputs under the all-0.9 draw
stream generate a different site (all infrastructure flags set, high
density, industrial zoning). -/
lemma generatedSites_houston_high :
    generatedSites [aceticHouston] [co2Houston] zeroDist 50 0 drawsHigh 0 =
      [⟨"site-1", 30, -95, ["acetic-1"], ["co2-1"], 0, 100, 100, 85, 60, 88⟩] := by
  with_unfolding_all decide

/-- Concrete evaluation: the engine's full output under the all-0.9 draw
stream. -/
lemma generate_houston_high :
    generateSiteRecommendations [aceticHouston] [co2Houston] zeroDist 50 0 drawsHigh 0 =
      [⟨"site-1", 30, -95, ["acetic-1"], ["co2-1"], 0, 100, 100, 85, 60, 88⟩] := by
  unfold generateSiteRecommendations
  rw [generatedSites_houston_high, List.mergeSort_singleton]

/-- Squared half-angle sines are unchanged when the two coordinates are
swapped. -/
lemma sin_half_sq_swap (x y : ℝ) :
    Real.sin ((x - y) * Real.pi / 180 / 2) * Real.sin ((x - y) * Real.pi / 180 / 2) =
      Real.sin ((y - x) * Real.pi / 180 / 2) * Real.sin ((y - x) * Real.pi / 180 / 2) := by
  have h : (x - y) * Real.pi / 180 / 2 = -((y - x) * Real.pi / 180 / 2) := by ring
  rw [h, Real.sin_neg]
  ring

/-- `jsAtan2` is non-negative on non-negative arguments. -/
lemma jsAtan2_nonneg {y x : ℝ} (hy : 0 ≤ y) (hx : 0 ≤ x) : 0 ≤ jsAtan2 y x := by
  unfold jsAtan2
  split
  case isTrue hx' =>
    have h0 : Real.arctan 0 ≤ Real.arctan (y / x) :=
      Real.arctan_strictMono.monotone (div_nonneg hy hx'.le)
    rwa [Real.arctan_zero] at h0
  case isFalse hx' =>
    split
    case isTrue hx'' => exact absurd hx'' (not_lt.mpr hx)
    case isFalse hx'' =>
      split
      case isTrue hy' => positivity
      case isFalse hy' =>
        split
        case isTrue hy'' => exact absurd hy'' (not_lt.mpr hy)
        case isFalse hy'' => exact le_refl 0

/-- The Haversine distance is symmetric in its two coordinate pairs. -/
lemma calculateDistance_symm (lat1 lon1 lat2 lon2 : ℝ) :
    calculateDistance lat1 lon1 lat2 lon2 = calculateDistance lat2 lon2 lat1 lon1 := by
  simp only [calculateDistance]
  rw [sin_half_sq_swap lat2 lat1, sin_half_sq_swap lon2 lon1,
    mul_comm (Real.cos (lat1 * Real.pi / 180)) (Real.cos (lat2 * Real.pi / 180))]

/-- The Haversine distance from a point to itself is zero. -/
lemma calculateDistance_self (lat lon : ℝ) : calculateDistance lat lon lat lon = 0 := by
  simp [calculateDistance, jsAtan2, Real.arctan_zero]

/-- The Haversine distance is non-negative. -/
lemma calculateDistance_nonneg (lat1 lon1 lat2 lon2 : ℝ) :
    0 ≤ calculateDistance lat1 lon1 lat2 lon2 := by
  simp only [calculateDistance]
  refine mul_nonneg (by norm_num) (mul_nonneg (by norm_num) ?_)
  exact jsAtan2_nonneg (Real.sqrt_nonneg _) (Real.sqrt_nonneg _)

/-- The governmental sub-score matches the spec's adjustment table. -/
lemma governmental_eq_spec (c : GeographicContext) :
    calculateGovernmentalScore c = spec_governmentalScore c := by
  obtain ⟨r, p, hw, rl, pl, pg, d, z⟩ := c
  unfold calculateGovernmentalScore spec_governmentalScore
  cases z <;> cases d <;> cases p <;> cases pl <;> cases pg <;>
    · simp only [INFRASTRUCTURE_FACTORS]
      norm_num
      try (congr 1; ring)

/-- The logistics sub-score matches the spec's adjustment table. -/
lemma logistics_eq_spec (c : GeographicContext) :
    calculateLogisticsScore c = spec_logisticsScore c := by
  obtain ⟨r, p, hw, rl, pl, pg, d, z⟩ := c
  unfold calculateLogisticsScore spec_logisticsScore
  cases d
  case low =>
    simp only [if_neg (show ¬(Density.low = Density.high) from by decide)]
    cases p <;> cases hw <;> cases rl <;> cases pl <;> cases pg <;>
      · simp only [INFRASTRUCTURE_FACTORS]
        norm_num
        try (congr 1; ring)
  case medium =>
    simp only [if_neg (show ¬(Density.medium = Density.high) from by decide)]
    cases p <;> cases hw <;> cases rl <;> cases pl <;> cases pg <;>
      · simp only [INFRASTRUCTURE_FACTORS]
        norm_num
        try (congr 1; ring)
  case high =>
    simp only [if_pos (show Density.high = Density.high from rfl)]
    cases p <;> cases hw <;> cases rl <;> cases pl <;> cases pg <;>
      · simp only [INFRASTRUCTURE_FACTORS]
        norm_num
        try (congr 1; ring)

/-- The policy-incentives sub-score matches the spec's adjustment table. -/
lemma policyIncentives_eq_spec (c : GeographicContext) :
    calculatePolicyIncentivesScore c = spec_policyIncentivesScore c := by
  obtain ⟨r, p, hw, rl, pl, pg, d, z⟩ := c
  unfold calculatePolicyIncentivesScore spec_policyIncentivesScore
  cases z <;> cases d <;>
    · norm_num
      try (congr 1; ring)

/-- The community-readiness sub-score matches the spec's adjustment
table. -/
lemma communityReadiness_eq_spec (c : GeographicContext) :
    calculateCommunityReadinessScore c = spec_communityReadinessScore c := by
  obtain ⟨r, p, hw, rl, pl, pg, d, z⟩ := c
  unfold calculateCommunityReadinessScore spec_communityReadinessScore
  cases z <;> cases d <;> cases p <;> cases rl <;> cases pl <;>
    · norm_num
      try (congr 1; ring)

/-- The synergy bonus computed by the code equals the spec's formula. -/
lemma synergy_eq_spec (af : List AceticAcidFacility) (cf : List CO2EmitterFacility) :
    analyzeFacilitySynergies af cf = spec_synergyBonus af cf := by
  unfold analyzeFacilitySynergies spec_synergyBonus
  dsimp only
  split <;> split <;>
    · congr 1
      try rw [mul_comm (3 : ℚ)]
      try ring

/-- The synergy bonus is a natural number at most 25. -/
lemma synergy_int (af : List AceticAcidFacility) (cf : List CO2EmitterFacility) :
    ∃ n : ℕ, analyzeFacilitySynergies af cf = (n : ℚ) ∧ n ≤ 25 := by
  unfold analyzeFacilitySynergies
  dsimp only
  refine ⟨min ((if 400000 < af.foldl (fun sum f => sum + f.capacity) (0 : ℚ) then 10 else 0)
    + (if 2000000 < cf.foldl (fun sum f => sum + f.co2EmissionRate) (0 : ℚ) then 10 else 0)
    + min (((cf.map (fun f => f.facilityType)).dedup).length * 3) 15) 25, ?_,
    Nat.min_le_right _ _⟩
  split <;> split <;>
    · push_cast [Nat.cast_min]
      try norm_num

/-- The generator's output is pairwise non-increasing in overallScore. -/
lemma generate_sorted (af : List AceticAcidFacility) (cf : List CO2EmitterFacility)
    (dist : ℚ → ℚ → ℚ → ℚ → ℚ) (maxD minS : ℚ) (g : ℕ → ℚ) (k : ℕ) :
    (generateSiteRecommendations af cf dist maxD minS g k).Pairwise
      (fun x y => y.overallScore ≤ x.overallScore) := by
  unfold generateSiteRecommendations
  have h := List.sorted_mergeSort sortLE_trans sortLE_total
    (generatedSites af cf dist maxD minS g k)
  exact h.imp (fun hb => of_decide_eq_true hb)

/-- Filtering the sorted output at any fixed overallScore value gives the
same list as filtering the generation-order list: the sort is stable. -/
lemma generate_stable (af : List AceticAcidFacility) (cf : List CO2EmitterFacility)
    (dist : ℚ → ℚ → ℚ → ℚ → ℚ) (maxD minS : ℚ) (g : ℕ → ℚ) (k : ℕ) (q : ℤ) :
    (generateSiteRecommendations af cf dist maxD minS g k).filter
        (fun s => decide (s.overallScore = q)) =
      (generatedSites af cf dist maxD minS g k).filter
        (fun s => decide (s.overallScore = q)) := by
  unfold generateSiteRecommendations
  have hcPairwise : ((generatedSites af cf dist maxD minS g k).filter
      (fun s => decide (s.overallScore = q))).Pairwise
      (fun x y => decide (y.overallScore ≤ x.overallScore) = true) := by
    apply List.pairwise_of_forall_mem_list
    intro a ha b hb
    have ha' := (List.mem_filter.mp ha).2
    have hb' := (List.mem_filter.mp hb).2
    simp only [decide_eq_true_eq] at ha' hb' ⊢
    rw [ha', hb']
  have hsub : List.Sublist ((generatedSites af cf dist maxD minS g k).filter
      (fun s => decide (s.overallScore = q)))
      ((generatedSites af cf dist maxD minS g k).mergeSort
        (fun x y => decide (y.overallScore ≤ x.overallScore))) :=
    List.sublist_mergeSort sortLE_trans sortLE_total hcPairwise
      (List.filter_sublist _)
  have hself : ((generatedSites af cf dist maxD minS g k).filter
      (fun s => decide (s.overallScore = q))).filter
      (fun s => decide (s.overallScore = q)) =
      (generatedSites af cf dist maxD minS g k).filter
        (fun s => decide (s.overallScore = q)) := by
    rw [List.filter_filter]
    apply List.filter_congr
    intro a ha
    rw [Bool.and_self]
  have hsub2 : List.Sublist ((generatedSites af cf dist maxD minS g k).filter
      (fun s => decide (s.overallScore = q)))
      (((generatedSites af cf dist maxD minS g k).mergeSort
        (fun x y => decide (y.overallScore ≤ x.overallScore))).filter
        (fun s => decide (s.overallScore = q))) := by
    rw [← hself]
    exact hsub.filter _
  have hlen : (((generatedSites af cf dist maxD minS g k).mergeSort
      (fun x y => decide (y.overallScore ≤ x.overallScore))).filter
      (fun s => decide (s.overallScore = q))).length =
      ((generatedSites af cf dist maxD minS g k).filter
        (fun s => decide (s.overallScore = q))).length :=
    ((List.mergeSort_perm (generatedSites af cf dist maxD minS g k) _).filter _).length_eq
  exact (hsub2.eq_of_length hlen.symm).symm

/-- C4: the spec requires a generation run to fail with a
ConfigurationError when the four weights do not sum to 1.0.  The code
has no weight configuration at all: `SCORING_WEIGHTS` is a hardcoded
constant (whose entries sum to exactly 1), `generateSiteRecommendations`
accepts no weight parameter, and no ConfigurationError or sum check
exists anywhere in the engine.  This theorem evaluates the only weight
set the code can ever use. -/
theorem c4_weights_hardcoded_sum_one :
    SCORING_WEIGHTS.governmental + SCORING_WEIGHTS.logistics +
      SCORING_WEIGHTS.policyIncentives + SCORING_WEIGHTS.communityReadiness = 1 := by
  norm_num [SCORING_WEIGHTS]

/-- C5: two generation runs on identical facility lists and thresholds
produce different outputs when the ambient `Math.random` draws differ.
The source derives the infrastructure context from the global unseeded
`Math.random` and accepts no seed, so same-seed reproducibility is not
available: the output depends on the draw stream. -/
theorem c5_output_depends_on_ambient_randomness :
    generateSiteRecommendations [aceticHouston] [co2Houston] zeroDist 50 0 drawsLow 0 ≠
      generateSiteRecommendations [aceticHouston] [co2Houston] zeroDist 50 0 drawsHigh 0 := by
  rw [generate_houston, generate_houston_high]
  intro h
  exact absurd h (by with_unfolding_all decide)

/-- C6: the output of every generation run is non-increasing in
overallScore, and restricting the output to any fixed overallScore
value yields exactly the generation-order (pair-enumeration-order)
sites with that score: the sort is stable with respect to generation
order for ties. -/
theorem c6_sorted_descending_stable :
    ∀ (af : List AceticAcidFacility) (cf : List CO2EmitterFacility)
      (dist : ℚ → ℚ → ℚ → ℚ → ℚ) (maxD minS : ℚ) (g : ℕ → ℚ) (k : ℕ),
      (generateSiteRecommendations af cf dist maxD minS g k).Pairwise
        (fun x y => y.overallScore ≤ x.overallScore) ∧
      ∀ q : ℤ,
        (generateSiteRecommendations af cf dist maxD minS g k).filter
            (fun s => decide (s.overallScore = q)) =
          (generatedSites af cf dist maxD minS g k).filter
            (fun s => decide (s.overallScore = q)) :=
  fun af cf dist maxD minS g k =>
    ⟨generate_sorted af cf dist maxD minS g k, generate_stable af cf dist maxD minS g k⟩

/-- C7: every sub-score equals its fixed base plus exactly the signed
adjustments of the spec's section 4.3 table, clamped to [0,100]. -/
theorem c7_subscore_adjustment_table :
    ∀ c : GeographicContext,
      calculateGovernmentalScore c = spec_governmentalScore c ∧
      calculateLogisticsScore c = spec_logisticsScore c ∧
      calculatePolicyIncentivesScore c = spec_policyIncentivesScore c ∧
      calculateCommunityReadinessScore c = spec_communityReadinessScore c :=
  fun c => ⟨governmental_eq_spec c, logistics_eq_spec c, policyIncentives_eq_spec c,
    communityReadiness_eq_spec c⟩

/-- C8: the Haversine distance (Earth radius 6371 km) is symmetric, zero
on identical points, and non-negative. -/
theorem c8_distance_symm_self_nonneg :
    (∀ lat1 lon1 lat2 lon2 : ℝ, calculateDistance lat1 lon1 lat2 lon2 =
      calculateDistance lat2 lon2 lat1 lon1) ∧
    (∀ lat lon : ℝ, calculateDistance lat lon lat lon = 0) ∧
    (∀ lat1 lon1 lat2 lon2 : ℝ, 0 ≤ calculateDistance lat1 lon1 lat2 lon2) :=
  ⟨calculateDistance_symm, calculateDistance_self, calculateDistance_nonneg⟩

/-- C1 (amended): every emitted site comes from a pair that passed the
inclusive distance filter, so its stored two-decimal-rounded distance
is at most maxDistance + 0.005 (rounding can push the stored value past
maxDistance by up to half a hundredth); every emitted site has
overallScore at least minScore (inclusive); empty input on either side
yields an empty result; and a pair at distance exactly maxDistance
whose site scores exactly minScore or more is emitted. -/
theorem c1_site_filters_and_empty_inputs :
    ∀ (af : List AceticAcidFacility) (cf : List CO2EmitterFacility)
      (dist : ℚ → ℚ → ℚ → ℚ → ℚ) (maxD minS : ℚ) (g : ℕ → ℚ) (k : ℕ),
      (∀ s ∈ generateSiteRecommendations af cf dist maxD minS g k,
        s.distance ≤ maxD + 1 / 200 ∧ minS ≤ (s.overallScore : ℚ)) ∧
      generateSiteRecommendations [] cf dist maxD minS g k = [] ∧
      generateSiteRecommendations af [] dist maxD minS g k = [] ∧
      (∀ (a : AceticAcidFacility) (c : CO2EmitterFacility),
        dist a.latitude a.longitude c.latitude c.longitude = maxD →
        minS ≤ ((pairSite dist g a c k 1).1.overallScore : ℚ) →
        generateSiteRecommendations [a] [c] dist maxD minS g k =
          [(pairSite dist g a c k 1).1]) := by
  intro af cf dist maxD minS g k
  refine ⟨?_, ?_, ?_, ?_⟩
  · intro s hs
    obtain ⟨a, ha, c, hc, k', n, hd, hEq, hscore⟩ := mem_generate hs
    obtain ⟨_, _, _, _, _, hdisteq, _, _, _, _, _⟩ := pairSite_fields dist g a c k' n
    constructor
    · rw [hEq, hdisteq]
      have h1 := jsRound_le (dist a.latitude a.longitude c.latitude c.longitude * 100)
      linarith
    · rw [hEq]
      exact hscore
  · have hnil : generatedSites [] cf dist maxD minS g k = [] := rfl
    unfold generateSiteRecommendations
    rw [hnil, List.mergeSort_nil]
  · unfold generateSiteRecommendations
    rw [generatedSites_co2_nil, List.mergeSort_nil]
  · intro a c hd hs
    have hgs : generatedSites [a] [c] dist maxD minS g k =
        [(pairSite dist g a c k 1).1] := by
      unfold generatedSites
      simp only [List.foldl_cons, List.foldl_nil]
      unfold processPair
      dsimp only
      rw [if_pos (le_of_eq hd), if_pos hs]
      exact List.nil_append _
    unfold generateSiteRecommendations
    rw [hgs, List.mergeSort_singleton]

/-- C1 counterexample: with the distance oracle returning exactly 0.005
km and maxDistance 0.005, the pair qualifies (inclusive boundary), but
the emitted site's stored distance, rounded to two decimals, is 0.01,
which exceeds maxDistance.  So "every emitted OverlapSite has distance
at most maxDistance" is false of the stored field as the claim states
it. -/
theorem c1_counterexample_rounded_distance :
    ¬ ∀ s ∈ generateSiteRecommendations [aceticHouston] [co2Houston]
        boundaryDist (1 / 200) 0 drawsLow 0, s.distance ≤ 1 / 200 := by
  intro h
  have hs := h siteBoundary (by rw [generate_boundary]; exact List.mem_singleton.mpr rfl)
  norm_num [siteBoundary] at hs

/-- C1 witness: the amended theorem applied to the boundary run. -/
theorem c1_witness :
    (siteBoundary.distance ≤ 1 / 200 + 1 / 200 ∧ (0 : ℚ) ≤ (siteBoundary.overallScore : ℚ)) ∧
    generateSiteRecommendations [aceticHouston] [co2Houston] boundaryDist (1 / 200) 0
        drawsLow 0 =
      [(pairSite boundaryDist drawsLow aceticHouston co2Houston 0 1).1] := by
  constructor
  · exact (c1_site_filters_and_empty_inputs [aceticHouston] [co2Houston] boundaryDist
      (1 / 200) 0 drawsLow 0).1 siteBoundary
      (by rw [generate_boundary]; exact List.mem_singleton.mpr rfl)
  · exact (c1_site_filters_and_empty_inputs [aceticHouston] [co2Houston] boundaryDist
      (1 / 200) 0 drawsLow 0).2.2.2 aceticHouston co2Houston rfl
      (by with_unfolding_all decide)

/-- C2: the four weights sum to 1; every emitted site's stored
(synergy-adjusted) sub-scores lie in [0,100] and its overallScore is
the half-up rounding of the weighted sum of those stored sub-scores. -/
theorem c2_subscores_in_range_overall_weighted :
    (SCORING_WEIGHTS.governmental + SCORING_WEIGHTS.logistics +
      SCORING_WEIGHTS.policyIncentives + SCORING_WEIGHTS.communityReadiness = 1) ∧
    ∀ (af : List AceticAcidFacility) (cf : List CO2EmitterFacility)
      (dist : ℚ → ℚ → ℚ → ℚ → ℚ) (maxD minS : ℚ) (g : ℕ → ℚ) (k : ℕ),
      ∀ s ∈ generateSiteRecommendations af cf dist maxD minS g k,
        (0 ≤ s.governmentalScore ∧ s.governmentalScore ≤ 100) ∧
        (0 ≤ s.logisticsScore ∧ s.logisticsScore ≤ 100) ∧
        (0 ≤ s.policyIncentivesScore ∧ s.policyIncentivesScore ≤ 100) ∧
        (0 ≤ s.communityReadinessScore ∧ s.communityReadinessScore ≤ 100) ∧
        s.overallScore = jsRound (s.governmentalScore * SCORING_WEIGHTS.governmental +
          s.logisticsScore * SCORING_WEIGHTS.logistics +
          s.policyIncentivesScore * SCORING_WEIGHTS.policyIncentives +
          s.communityReadinessScore * SCORING_WEIGHTS.communityReadiness) := by
  constructor
  · norm_num [SCORING_WEIGHTS]
  intro af cf dist maxD minS g k s hs
  obtain ⟨a, ha, c, hc, k', n, hd, hEq, hscore⟩ := mem_generate hs
  obtain ⟨_, _, _, _, _, _, hgov, hlog, hpol, hcom, hover⟩ := pairSite_fields dist g a c k' n
  obtain ⟨⟨hg0, hg1⟩, ⟨hl0, hl1⟩, ⟨hp0, hp1⟩, ⟨hc0, hc1⟩⟩ :=
    calculateSiteScores_bounds (optimalLat a c) (optimalLon a c) g k'
  have hb := analyzeFacilitySynergies_nonneg [a] [c]
  subst hEq
  refine ⟨⟨?_, ?_⟩, ⟨?_, ?_⟩, ⟨?_, ?_⟩, ⟨?_, ?_⟩, hover⟩
  · rw [hgov]
    exact le_min (by norm_num) (add_nonneg hg0 (mul_nonneg hb (by norm_num)))
  · rw [hgov]
    exact min_le_left _ _
  · rw [hlog]
    exact le_min (by norm_num) (add_nonneg hl0 (mul_nonneg hb (by norm_num)))
  · rw [hlog]
    exact min_le_left _ _
  · rw [hpol]
    exact hp0
  · rw [hpol]
    exact hp1
  · rw [hcom]
    exact hc0
  · rw [hcom]
    exact hc1

/-- C2 witness: the invariants instantiated at the concrete Houston
site. -/
theorem c2_witness :
    (0 ≤ siteHouston.governmentalScore ∧ siteHouston.governmentalScore ≤ 100) ∧
    (0 ≤ siteHouston.logisticsScore ∧ siteHouston.logisticsScore ≤ 100) ∧
    (0 ≤ siteHouston.policyIncentivesScore ∧ siteHouston.policyIncentivesScore ≤ 100) ∧
    (0 ≤ siteHouston.communityReadinessScore ∧ siteHouston.communityReadinessScore ≤ 100) ∧
    siteHouston.overallScore = jsRound (siteHouston.governmentalScore * SCORING_WEIGHTS.governmental +
      siteHouston.logisticsScore * SCORING_WEIGHTS.logistics +
      siteHouston.policyIncentivesScore * SCORING_WEIGHTS.policyIncentives +
      siteHouston.communityReadinessScore * SCORING_WEIGHTS.communityReadiness) :=
  c2_subscores_in_range_overall_weighted.2 [aceticHouston] [co2Houston] zeroDist 50 0
    drawsLow 0 siteHouston (by rw [generate_houston]; exact List.mem_singleton.mpr rfl)

/-- C3: the synergy bonus is a natural number at most 25 equal to the
spec's formula, and every emitted site's governmental and logistics
sub-scores carry 30% and 40% of the pair's bonus (clamped above at
100), while its policy and community sub-scores equal the unboosted
base scores. -/
theorem c3_synergy_bonus_and_partial_boost :
    (∀ (af : List AceticAcidFacility) (cf : List CO2EmitterFacility),
      (∃ n : ℕ, analyzeFacilitySynergies af cf = (n : ℚ) ∧ n ≤ 25) ∧
      analyzeFacilitySynergies af cf = spec_synergyBonus af cf) ∧
    ∀ (af : List AceticAcidFacility) (cf : List CO2EmitterFacility)
      (dist : ℚ → ℚ → ℚ → ℚ → ℚ) (maxD minS : ℚ) (g : ℕ → ℚ) (k : ℕ),
      ∀ s ∈ generateSiteRecommendations af cf dist maxD minS g k,
        ∃ a ∈ af, ∃ c ∈ cf, ∃ k' : ℕ,
          s.governmentalScore = min 100
            ((calculateSiteScores (optimalLat a c) (optimalLon a c) g k').1.governmental +
              analyzeFacilitySynergies [a] [c] * 0.3) ∧
          s.logisticsScore = min 100
            ((calculateSiteScores (optimalLat a c) (optimalLon a c) g k').1.logistics +
              analyzeFacilitySynergies [a] [c] * 0.4) ∧
          s.policyIncentivesScore =
            (calculateSiteScores (optimalLat a c) (optimalLon a c) g k').1.policyIncentives ∧
          s.communityReadinessScore =
            (calculateSiteScores (optimalLat a c) (optimalLon a c) g k').1.communityReadiness := by
  constructor
  · intro af cf
    exact ⟨synergy_int af cf, synergy_eq_spec af cf⟩
  intro af cf dist maxD minS g k s hs
  obtain ⟨a, ha, c, hc, k', n, hd, hEq, hscore⟩ := mem_generate hs
  obtain ⟨_, _, _, _, _, _, hgov, hlog, hpol, hcom, _⟩ := pairSite_fields dist g a c k' n
  subst hEq
  exact ⟨a, ha, c, hc, k', hgov, hlog, hpol, hcom⟩

/-- C3 witness: the boost decomposition instantiated at the concrete
Houston site. -/
theorem c3_witness :
    ∃ a ∈ [aceticHouston], ∃ c ∈ [co2Houston], ∃ k' : ℕ,
      siteHouston.governmentalScore = min 100
        ((calculateSiteScores (optimalLat a c) (optimalLon a c) drawsLow k').1.governmental +
          analyzeFacilitySynergies [a] [c] * 0.3) ∧
      siteHouston.logisticsScore = min 100
        ((calculateSiteScores (optimalLat a c) (optimalLon a c) drawsLow k').1.logistics +
          analyzeFacilitySynergies [a] [c] * 0.4) ∧
      siteHouston.policyIncentivesScore =
        (calculateSiteScores (optimalLat a c) (optimalLon a c) drawsLow k').1.policyIncentives ∧
      siteHouston.communityReadinessScore =
        (calculateSiteScores (optimalLat a c) (optimalLon a c) drawsLow k').1.communityReadiness :=
  c3_synergy_bonus_and_partial_boost.2 [aceticHouston] [co2Houston] zeroDist 50 0
    drawsLow 0 siteHouston (by rw [generate_houston]; exact List.mem_singleton.mpr rfl)

/-- C9: every emitted site's coordinates are the capacity-weighted
midpoint of its generating pair, and when the two facilities share a
coordinate (with positive capacity and emission rate) the midpoint is
that shared coordinate. -/
theorem c9_capacity_weighted_midpoint :
    ∀ (af : List AceticAcidFacility) (cf : List CO2EmitterFacility)
      (dist : ℚ → ℚ → ℚ → ℚ → ℚ) (maxD minS : ℚ) (g : ℕ → ℚ) (k : ℕ),
      (∀ a ∈ af, 0 < a.capacity) → (∀ c ∈ cf, 0 < c.co2EmissionRate) →
      ∀ s ∈ generateSiteRecommendations af cf dist maxD minS g k,
        ∃ a ∈ af, ∃ c ∈ cf,
          s.latitude = (a.latitude * (a.capacity / 1000000) +
              c.latitude * (c.co2EmissionRate / 10000000)) /
            (a.capacity / 1000000 + c.co2EmissionRate / 10000000) ∧
          s.longitude = (a.longitude * (a.capacity / 1000000) +
              c.longitude * (c.co2EmissionRate / 10000000)) /
            (a.capacity / 1000000 + c.co2EmissionRate / 10000000) ∧
          (a.latitude = c.latitude → a.longitude = c.longitude →
            s.latitude = a.latitude ∧ s.longitude = a.longitude) := by
  intro af cf dist maxD minS g k h1 h2 s hs
  obtain ⟨a, ha, c, hc, k', n, hd, hEq, hscore⟩ := mem_generate hs
  obtain ⟨_, hlat, hlon, _, _, _, _, _, _, _, _⟩ := pairSite_fields dist g a c k' n
  subst hEq
  have hwa := div_pos (h1 a ha) (show (0 : ℚ) < 1000000 by norm_num)
  have hwc := div_pos (h2 c hc) (show (0 : ℚ) < 10000000 by norm_num)
  have hne : a.capacity / 1000000 + c.co2EmissionRate / 10000000 ≠ 0 :=
    ne_of_gt (add_pos hwa hwc)
  refine ⟨a, ha, c, hc, ?_, ?_, ?_⟩
  · rw [hlat]
    rfl
  · rw [hlon]
    rfl
  · intro hla hlo
    constructor
    · rw [hlat]
      unfold optimalLat
      rw [← hla, div_eq_iff hne]
      ring
    · rw [hlon]
      unfold optimalLon
      rw [← hlo, div_eq_iff hne]
      ring

/-- C9 witness: the midpoint property instantiated at the concrete
Houston run, whose two facilities share a coordinate. -/
theorem c9_witness :
    ∃ a ∈ [aceticHouston], ∃ c ∈ [co2Houston],
      siteHouston.latitude = (a.latitude * (a.capacity / 1000000) +
          c.latitude * (c.co2EmissionRate / 10000000)) /
        (a.capacity / 1000000 + c.co2EmissionRate / 10000000) ∧
      siteHouston.longitude = (a.longitude * (a.capacity / 1000000) +
          c.longitude * (c.co2EmissionRate / 10000000)) /
        (a.capacity / 1000000 + c.co2EmissionRate / 10000000) ∧
      (a.latitude = c.latitude → a.longitude = c.longitude →
        siteHouston.latitude = a.latitude ∧ siteHouston.longitude = a.longitude) :=
  c9_capacity_weighted_midpoint [aceticHouston] [co2Houston] zeroDist 50 0 drawsLow 0
    (by intro a ha; rw [List.mem_singleton.mp ha]; with_unfolding_all decide)
    (by intro c hc; rw [List.mem_singleton.mp hc]; with_unfolding_all decide)
    siteHouston (by rw [generate_houston]; exact List.mem_singleton.mpr rfl)

/-- C10: every emitted site's contributor lists are singletons holding
exactly the generating pair's facility ids. -/
theorem c10_contributor_lists_singletons :
    ∀ (af : List AceticAcidFacility) (cf : List CO2EmitterFacility)
      (dist : ℚ → ℚ → ℚ → ℚ → ℚ) (maxD minS : ℚ) (g : ℕ → ℚ) (k : ℕ),
      ∀ s ∈ generateSiteRecommendations af cf dist maxD minS g k,
        ∃ a ∈ af, ∃ c ∈ cf,
          s.aceticAcidFacilities = [a.id] ∧ s.co2EmitterFacilities = [c.id] ∧
          s.aceticAcidFacilities.length = 1 ∧ s.co2EmitterFacilities.length = 1 := by
  intro af cf dist maxD minS g k s hs
  obtain ⟨a, ha, c, hc, k', n, hd, hEq, hscore⟩ := mem_generate hs
  obtain ⟨_, _, _, hace, hco2, _, _, _, _, _, _⟩ := pairSite_fields dist g a c k' n
  subst hEq
  exact ⟨a, ha, c, hc, hace, hco2, by rw [hace]; rfl, by rw [hco2]; rfl⟩

/-- C10 witness: the contributor-list property instantiated at the
concrete Houston site. -/
theorem c10_witness :
    ∃ a ∈ [aceticHouston], ∃ c ∈ [co2Houston],
      siteHouston.aceticAcidFacilities = [a.id] ∧
      siteHouston.co2EmitterFacilities = [c.id] ∧
      siteHouston.aceticAcidFacilities.length = 1 ∧
      siteHouston.co2EmitterFacilities.length = 1 :=
  c10_contributor_lists_singletons [aceticHouston] [co2Houston] zeroDist 50 0 drawsLow 0
    siteHouston (by rw [generate_houston]; exact List.mem_singleton.mpr rfl)

end LambCo